import Mathlib

/-!
Verification development for `snorkel/models/annotation.py`: the declarative
ORM schema of the annotation subsystem (tables `annotation_key`, `label`,
`feature`, `prediction`, `stable_label`).

The embedding has two layers:
* schema data transcribed from the source declarations (`ColumnSpec`,
  `RelationshipSpec`, and one `List ColumnSpec` per table);
* a small relational engine executing that schema (typed inserts with
  not-null / primary-key / unique / foreign-key checks, and the cascade
  deletes induced by the `relationship(..., backref(..., cascade='all,
  delete-orphan'))` declarations of `AnnotationMixin`).
-/

namespace Snorkel

/-- Modelled from the spec: `snorkel.utils.camel_to_under` is imported by
`annotation.py` but its source is outside this unit; per the spec it derives
table and backref names from class names by converting CamelCase to
snake_case (`Label` to `label`, `Feature` to `feature`, `Prediction` to
`prediction`). -/
def camelAux : Bool → List Char → List Char
  | _, [] => []
  | first, c :: cs =>
      (if c.isUpper && !first then ['_', c.toLower] else [c.toLower])
        ++ camelAux false cs

/-- Modelled from the spec: CamelCase to snake_case conversion used for
`__tablename__` and backref names. -/
def camel_to_under (s : String) : String :=
  ⟨camelAux true s.data⟩

/-- A value stored in a table cell; `nullV` is SQL NULL.  Floats carry a
rational representative (no float arithmetic occurs in this unit). -/
inductive SqlValue where
  | intV : Int → SqlValue
  | floatV : ℚ → SqlValue
  | stringV : String → SqlValue
  | nullV : SqlValue
deriving DecidableEq, Repr

/-- Column type tags for `Integer`, `Float`, `String`. -/
inductive ColType where
  | intT | floatT | stringT
deriving DecidableEq, Repr

/-- Whether a non-null value fits a column's declared type. -/
def typeMatches : ColType → SqlValue → Bool
  | ColType.intT, SqlValue.intV _ => true
  | ColType.floatT, SqlValue.floatV _ => true
  | ColType.stringT, SqlValue.stringV _ => true
  | _, _ => false

/-- One `Column(...)` declaration: name, type, and the constraint arguments
given in the source (`primary_key`, `unique`, `nullable`, `default`,
`ForeignKey`, the latter as the referenced `table.column` string). -/
structure ColumnSpec where
  name : String
  ctype : ColType
  primary_key : Bool
  unique : Bool
  nullable : Bool
  dflt : Option SqlValue
  foreign_key : Option String
deriving DecidableEq, Repr

/-- A `relationship(target, backref=backref(name, cascade=...))` declaration:
target class, backref collection name, and the backref cascade string. -/
structure RelationshipSpec where
  target : String
  backref_name : String
  backref_cascade : String
deriving DecidableEq, Repr

/-! ## Schema transcribed from `annotation.py` -/

/-- Source: `AnnotationKey.__tablename__ = 'annotation_key'`. -/
def AnnotationKey_tablename : String := "annotation_key"

/-- Columns of `AnnotationKey`:
`id = Column(Integer, primary_key=True)`,
`name = Column(String, unique=True, nullable=False)`. -/
def annotation_key_columns : List ColumnSpec :=
  [ ⟨"id", ColType.intT, true, false, true, none, none⟩,
    ⟨"name", ColType.stringT, false, true, false, none, none⟩ ]

/-- Source: `AnnotationMixin.__tablename__` is `camel_to_under(cls.__name__)`. -/
def mixin_tablename (clsName : String) : String :=
  camel_to_under clsName

/-- Source: `AnnotationMixin.key_id` is
`Column('key_id', Integer, ForeignKey('annotation_key.id'), primary_key=True)`. -/
def mixin_key_id : ColumnSpec :=
  ⟨"key_id", ColType.intT, true, false, true, none, some "annotation_key.id"⟩

/-- Source: `AnnotationMixin.candidate_id` is
`Column('candidate_id', Integer, ForeignKey('candidate.id'), primary_key=True)`. -/
def mixin_candidate_id : ColumnSpec :=
  ⟨"candidate_id", ColType.intT, true, false, true, none, some "candidate.id"⟩

/-- Source: `AnnotationMixin.key` is `relationship('AnnotationKey',
backref=backref(camel_to_under(cls.__name__) + 's', cascade='all, delete-orphan'))`. -/
def mixin_key_rel (clsName : String) : RelationshipSpec :=
  ⟨"AnnotationKey", camel_to_under clsName ++ "s", "all, delete-orphan"⟩

/-- Source: `AnnotationMixin.candidate` is `relationship('Candidate',
backref=backref(camel_to_under(cls.__name__) + 's', cascade='all, delete-orphan',
cascade_backrefs=False), cascade_backrefs=False)`. -/
def mixin_candidate_rel (clsName : String) : RelationshipSpec :=
  ⟨"Candidate", camel_to_under clsName ++ "s", "all, delete-orphan"⟩

/-- Columns of `Label`: the mixin columns plus
`value = Column(Integer, nullable=False)`. -/
def Label_columns : List ColumnSpec :=
  [ mixin_key_id, mixin_candidate_id,
    ⟨"value", ColType.intT, false, false, false, none, none⟩ ]

/-- Columns of `Feature`: the mixin columns plus
`value = Column(Float, nullable=False)`. -/
def Feature_columns : List ColumnSpec :=
  [ mixin_key_id, mixin_candidate_id,
    ⟨"value", ColType.floatT, false, false, false, none, none⟩ ]

/-- Columns of `Prediction`: the mixin columns plus
`value = Column(Float, nullable=False)`. -/
def Prediction_columns : List ColumnSpec :=
  [ mixin_key_id, mixin_candidate_id,
    ⟨"value", ColType.floatT, false, false, false, none, none⟩ ]

/-- Source: `StableLabel.__tablename__ = 'stable_label'`. -/
def StableLabel_tablename : String := "stable_label"

/-- Columns of `StableLabel`:
`context_stable_ids = Column(String, primary_key=True)`,
`annotator_name = Column(String, primary_key=True)`,
`split = Column(Integer, default=0)`,
`value = Column(Integer, nullable=False)`. -/
def stable_label_columns : List ColumnSpec :=
  [ ⟨"context_stable_ids", ColType.stringT, true, false, true, none, none⟩,
    ⟨"annotator_name", ColType.stringT, true, false, true, none, none⟩,
    ⟨"split", ColType.intT, false, false, true, some (SqlValue.intV 0), none⟩,
    ⟨"value", ColType.intT, false, false, false, none, none⟩ ]

/-- Modelled from the spec: `Candidate` is an external entity ("a data point
being classified"); only its integer primary key `id` is referenced here,
through `ForeignKey('candidate.id')`. -/
def candidate_columns : List ColumnSpec :=
  [ ⟨"id", ColType.intT, true, false, true, none, none⟩ ]

/-! ## Relational engine executing the schema -/

/-- A stored row: one `SqlValue` per column, in declaration order. -/
abbrev Row := List SqlValue

/-- The database state: one list of rows per table of the schema (plus the
external `candidate` table that the annotation foreign keys reference). -/
structure DB where
  candidate : List Row
  annotation_key : List Row
  label : List Row
  feature : List Row
  prediction : List Row
  stable_label : List Row
deriving DecidableEq, Repr

/-- The empty database. -/
def DB.empty : DB := ⟨[], [], [], [], [], []⟩

/-- Database-layer failure modes surfaced to the caller. -/
inductive DBError where
  | arityMismatch
  | notNullViolation
  | typeMismatch
  | pkViolation
  | uniqueViolation
  | fkViolation
deriving DecidableEq, Repr

/-- The value of row `r` at column index `i` (NULL when out of range). -/
def colAt (r : Row) (i : Nat) : SqlValue :=
  r.getD i SqlValue.nullV

/-- An insert supplies, per column, either an explicit value (`some v`, where
`v` may be NULL) or nothing (`none`), in which case the column default applies
(NULL when the column has no default). -/
def resolveValue (c : ColumnSpec) : Option SqlValue → SqlValue
  | none => c.dflt.getD SqlValue.nullV
  | some v => v

/-- The row actually stored by an insert, after filling defaults. -/
def resolveRow (cols : List ColumnSpec) (vals : List (Option SqlValue)) : Row :=
  (cols.zip vals).map (fun p => resolveValue p.1 p.2)

/-- Per-column check: NULL is rejected in a `nullable=False` or primary-key
column; a non-NULL value must match the column type. -/
def columnCheck (c : ColumnSpec) (v : SqlValue) : Option DBError :=
  if v = SqlValue.nullV then
    if c.nullable && !c.primary_key then none else some DBError.notNullViolation
  else if typeMatches c.ctype v then none else some DBError.typeMismatch

/-- Row-level check: first per-column error in declaration order. -/
def rowCheck : List ColumnSpec → Row → Option DBError
  | [], [] => none
  | c :: cs, v :: vs =>
      match columnCheck c v with
      | some e => some e
      | none => rowCheck cs vs
  | _, _ => some DBError.arityMismatch

/-- Projection of a row onto the primary-key columns. -/
def pkProj (cols : List ColumnSpec) (r : Row) : List SqlValue :=
  ((cols.zip r).filter (fun p => p.1.primary_key)).map (fun p => p.2)

/-- Whether an existing row shares the new row's primary key. -/
def pkConflict (cols : List ColumnSpec) (rows : List Row) (r : Row) : Bool :=
  rows.any (fun s => decide (pkProj cols s = pkProj cols r))

/-- Whether a `unique=True` column value (non-NULL, as in SQL) already occurs
in an existing row. -/
def uniqueConflict (cols : List ColumnSpec) (rows : List Row) (r : Row) : Bool :=
  cols.enum.any (fun p =>
    p.2.unique && !(decide (colAt r p.1 = SqlValue.nullV))
      && rows.any (fun s => decide (colAt s p.1 = colAt r p.1)))

/-- Whether the table referenced by a `ForeignKey` string contains `v` in its
referenced column.  The schema declares exactly two targets:
`annotation_key.id` and `candidate.id`, both at column index 0. -/
def DB.fkTargetHas (db : DB) (ref : String) (v : SqlValue) : Bool :=
  if ref = "annotation_key.id" then
    db.annotation_key.any (fun r => decide (colAt r 0 = v))
  else if ref = "candidate.id" then
    db.candidate.any (fun r => decide (colAt r 0 = v))
  else false

/-- Whether some non-NULL foreign-key column of the row fails to resolve. -/
def fkConflict (db : DB) (cols : List ColumnSpec) (r : Row) : Bool :=
  (cols.zip r).any (fun p =>
    match p.1.foreign_key with
    | some ref => !(decide (p.2 = SqlValue.nullV)) && !(db.fkTargetHas ref p.2)
    | none => false)

/-- All constraint checks on a resolved row, in order: per-column (not-null /
type), primary key, unique, foreign key. -/
def insertCheck (db : DB) (cols : List ColumnSpec) (rows : List Row)
    (r : Row) : Option DBError :=
  match rowCheck cols r with
  | some e => some e
  | none =>
      if pkConflict cols rows r then some DBError.pkViolation
      else if uniqueConflict cols rows r then some DBError.uniqueViolation
      else if fkConflict db cols r then some DBError.fkViolation
      else none

/-- Insert a row into a table: arity check, then `insertCheck`; on success,
the stored row. -/
def insertInto (db : DB) (cols : List ColumnSpec) (rows : List Row)
    (vals : List (Option SqlValue)) : Except DBError Row :=
  if vals.length = cols.length then
    match insertCheck db cols rows (resolveRow cols vals) with
    | some e => Except.error e
    | none => Except.ok (resolveRow cols vals)
  else Except.error DBError.arityMismatch

/-- Insert into `candidate` (external table). -/
def DB.insertCandidate (db : DB) (vals : List (Option SqlValue)) : Except DBError DB :=
  match insertInto db candidate_columns db.candidate vals with
  | Except.ok r => Except.ok { db with candidate := db.candidate ++ [r] }
  | Except.error e => Except.error e

/-- Insert into `annotation_key`. -/
def DB.insertAnnotationKey (db : DB) (vals : List (Option SqlValue)) : Except DBError DB :=
  match insertInto db annotation_key_columns db.annotation_key vals with
  | Except.ok r => Except.ok { db with annotation_key := db.annotation_key ++ [r] }
  | Except.error e => Except.error e

/-- Insert into `label`. -/
def DB.insertLabel (db : DB) (vals : List (Option SqlValue)) : Except DBError DB :=
  match insertInto db Label_columns db.label vals with
  | Except.ok r => Except.ok { db with label := db.label ++ [r] }
  | Except.error e => Except.error e

/-- Insert into `feature`. -/
def DB.insertFeature (db : DB) (vals : List (Option SqlValue)) : Except DBError DB :=
  match insertInto db Feature_columns db.feature vals with
  | Except.ok r => Except.ok { db with feature := db.feature ++ [r] }
  | Except.error e => Except.error e

/-- Insert into `prediction`. -/
def DB.insertPrediction (db : DB) (vals : List (Option SqlValue)) : Except DBError DB :=
  match insertInto db Prediction_columns db.prediction vals with
  | Except.ok r => Except.ok { db with prediction := db.prediction ++ [r] }
  | Except.error e => Except.error e

/-- Insert into `stable_label`. -/
def DB.insertStableLabel (db : DB) (vals : List (Option SqlValue)) : Except DBError DB :=
  match insertInto db stable_label_columns db.stable_label vals with
  | Except.ok r => Except.ok { db with stable_label := db.stable_label ++ [r] }
  | Except.error e => Except.error e

/-- Delete the `candidate` row with primary key `cid`.  By the
`AnnotationMixin.candidate` relationship (`backref(..., cascade='all,
delete-orphan')`), the delete cascades to every `label`, `feature` and
`prediction` row whose `candidate_id` (column index 1) refers to it;
`stable_label` declares no relationship and is untouched. -/
def DB.deleteCandidate (db : DB) (cid : SqlValue) : DB :=
  { db with
    candidate := db.candidate.filter (fun r => !(decide (colAt r 0 = cid))),
    label := db.label.filter (fun r => !(decide (colAt r 1 = cid))),
    feature := db.feature.filter (fun r => !(decide (colAt r 1 = cid))),
    prediction := db.prediction.filter (fun r => !(decide (colAt r 1 = cid))) }

/-- Delete the `annotation_key` row with primary key `kid`.  By the
`AnnotationMixin.key` relationship (`backref(..., cascade='all,
delete-orphan')`), the delete cascades to every `label`, `feature` and
`prediction` row whose `key_id` (column index 0) refers to it;
`stable_label` declares no relationship and is untouched. -/
def DB.deleteAnnotationKey (db : DB) (kid : SqlValue) : DB :=
  { db with
    annotation_key := db.annotation_key.filter (fun r => !(decide (colAt r 0 = kid))),
    label := db.label.filter (fun r => !(decide (colAt r 0 = kid))),
    feature := db.feature.filter (fun r => !(decide (colAt r 0 = kid))),
    prediction := db.prediction.filter (fun r => !(decide (colAt r 0 = kid))) }

/-- ORM-level update of an annotation's `value` column (index 2) for the rows
matching primary key `pk`; primary-key columns are never updated. -/
def updValue (cols : List ColumnSpec) (pk : List SqlValue) (v : SqlValue)
    (rows : List Row) : List Row :=
  rows.map (fun r => if pkProj cols r = pk then r.set 2 v else r)

/-- The session-level operations available on this schema: typed inserts,
the two cascading deletes, row deletes by primary key, and `value` updates. -/
inductive Op where
  | insCandidate (vals : List (Option SqlValue))
  | insKey (vals : List (Option SqlValue))
  | insLabel (vals : List (Option SqlValue))
  | insFeature (vals : List (Option SqlValue))
  | insPrediction (vals : List (Option SqlValue))
  | insStableLabel (vals : List (Option SqlValue))
  | delCandidate (cid : SqlValue)
  | delKey (kid : SqlValue)
  | delLabel (pk : List SqlValue)
  | delFeature (pk : List SqlValue)
  | delPrediction (pk : List SqlValue)
  | delStableLabel (pk : List SqlValue)
  | updLabel (pk : List SqlValue) (v : SqlValue)
  | updFeature (pk : List SqlValue) (v : SqlValue)
  | updPrediction (pk : List SqlValue) (v : SqlValue)

/-- A failed insert leaves the database unchanged. -/
def tryStep (db : DB) : Except DBError DB → DB
  | Except.ok db2 => db2
  | Except.error _ => db

/-- Apply one operation to the database state. -/
def applyOp (db : DB) : Op → DB
  | Op.insCandidate vals => tryStep db (db.insertCandidate vals)
  | Op.insKey vals => tryStep db (db.insertAnnotationKey vals)
  | Op.insLabel vals => tryStep db (db.insertLabel vals)
  | Op.insFeature vals => tryStep db (db.insertFeature vals)
  | Op.insPrediction vals => tryStep db (db.insertPrediction vals)
  | Op.insStableLabel vals => tryStep db (db.insertStableLabel vals)
  | Op.delCandidate cid => db.deleteCandidate cid
  | Op.delKey kid => db.deleteAnnotationKey kid
  | Op.delLabel pk =>
      { db with label := db.label.filter (fun r => !(decide (pkProj Label_columns r = pk))) }
  | Op.delFeature pk =>
      { db with feature := db.feature.filter (fun r => !(decide (pkProj Feature_columns r = pk))) }
  | Op.delPrediction pk =>
      { db with prediction := db.prediction.filter (fun r => !(decide (pkProj Prediction_columns r = pk))) }
  | Op.delStableLabel pk =>
      { db with stable_label := db.stable_label.filter (fun r => !(decide (pkProj stable_label_columns r = pk))) }
  | Op.updLabel pk v => { db with label := updValue Label_columns pk v db.label }
  | Op.updFeature pk v => { db with feature := updValue Feature_columns pk v db.feature }
  | Op.updPrediction pk v => { db with prediction := updValue Prediction_columns pk v db.prediction }

/-- A database state is reachable when some sequence of operations produces it
from the empty database. -/
def reachable (db : DB) : Prop :=
  ∃ ops : List Op, db = ops.foldl applyOp DB.empty

/-- Pairwise-distinct primary keys: at most one row per key projection. -/
def pkInv (cols : List ColumnSpec) (rows : List Row) : Prop :=
  rows.Pairwise (fun r s => pkProj cols r ≠ pkProj cols s)

/-- The primary-key invariant on every table of the state. -/
def DB.pkOk (db : DB) : Prop :=
  pkInv candidate_columns db.candidate ∧
  pkInv annotation_key_columns db.annotation_key ∧
  pkInv Label_columns db.label ∧
  pkInv Feature_columns db.feature ∧
  pkInv Prediction_columns db.prediction ∧
  pkInv stable_label_columns db.stable_label

/-! ## Invariant-preservation lemmas -/

theorem pkConflict_eq_false {cols : List ColumnSpec} {rows : List Row} {r : Row} :
    pkConflict cols rows r = false ↔ ∀ s ∈ rows, ¬ pkProj cols s = pkProj cols r := by
  simp [pkConflict]

theorem pkInv_filter {cols : List ColumnSpec} {rows : List Row} (p : Row → Bool)
    (h : pkInv cols rows) : pkInv cols (rows.filter p) :=
  List.Pairwise.sublist (List.filter_sublist rows) h

theorem pkInv_append {cols : List ColumnSpec} {rows : List Row} {r : Row}
    (hinv : pkInv cols rows) (hfresh : pkConflict cols rows r = false) :
    pkInv cols (rows ++ [r]) := by
  rw [pkInv, List.pairwise_append]
  refine ⟨hinv, List.pairwise_singleton _ _, ?_⟩
  intro a ha b hb
  rw [List.mem_singleton] at hb
  subst hb
  exact (pkConflict_eq_false.mp hfresh) a ha

theorem insertInto_ok {db : DB} {cols : List ColumnSpec} {rows : List Row}
    {vals : List (Option SqlValue)} {r : Row}
    (h : insertInto db cols rows vals = Except.ok r) :
    r = resolveRow cols vals ∧
      insertCheck db cols rows (resolveRow cols vals) = none := by
  unfold insertInto at h
  split at h
  · cases hc : insertCheck db cols rows (resolveRow cols vals) with
    | some e => rw [hc] at h; simp at h
    | none =>
        rw [hc] at h
        injection h with h2
        exact ⟨h2.symm, rfl⟩
  · simp at h

theorem insertCheck_none_pk {db : DB} {cols : List ColumnSpec} {rows : List Row}
    {r : Row} (h : insertCheck db cols rows r = none) :
    pkConflict cols rows r = false := by
  unfold insertCheck at h
  cases hrc : rowCheck cols r with
  | some e => rw [hrc] at h; simp at h
  | none =>
      rw [hrc] at h
      by_cases hpk : pkConflict cols rows r
      · simp [hpk] at h
      · simpa using hpk

theorem insert_pkInv {db : DB} {cols : List ColumnSpec} {rows : List Row}
    {vals : List (Option SqlValue)} {r : Row}
    (h : insertInto db cols rows vals = Except.ok r) (hinv : pkInv cols rows) :
    pkInv cols (rows ++ [r]) := by
  obtain ⟨hr, hc⟩ := insertInto_ok h
  subst hr
  exact pkInv_append hinv (insertCheck_none_pk hc)

theorem pkProj_set2 {c0 c1 c2 : ColumnSpec} (h : c2.primary_key = false)
    (r : Row) (v : SqlValue) :
    pkProj [c0, c1, c2] (r.set 2 v) = pkProj [c0, c1, c2] r := by
  match r with
  | [] => rfl
  | [a] => rfl
  | [a, b] => rfl
  | a :: b :: c :: t => simp [pkProj, List.filter, h]

theorem pkInv_updValue {cols : List ColumnSpec} {rows : List Row}
    {pk : List SqlValue} {v : SqlValue}
    (hset : ∀ r, pkProj cols (r.set 2 v) = pkProj cols r)
    (hinv : pkInv cols rows) : pkInv cols (updValue cols pk v rows) := by
  rw [updValue, pkInv, List.pairwise_map]
  have hf : ∀ x : Row,
      pkProj cols (if pkProj cols x = pk then x.set 2 v else x) = pkProj cols x := by
    intro x
    by_cases hx : pkProj cols x = pk
    · simp [hx, hset]
    · simp [hx]
  refine hinv.imp ?_
  intro a b hab
  rw [hf a, hf b]
  exact hab

theorem insertCandidate_ok {db db2 : DB} {vals : List (Option SqlValue)}
    (h : db.insertCandidate vals = Except.ok db2) :
    ∃ r, insertInto db candidate_columns db.candidate vals = Except.ok r ∧
      db2 = { db with candidate := db.candidate ++ [r] } := by
  unfold DB.insertCandidate at h
  cases hi : insertInto db candidate_columns db.candidate vals with
  | error e => rw [hi] at h; simp at h
  | ok r => rw [hi] at h; simp at h; exact ⟨r, rfl, h.symm⟩

theorem insertAnnotationKey_ok {db db2 : DB} {vals : List (Option SqlValue)}
    (h : db.insertAnnotationKey vals = Except.ok db2) :
    ∃ r, insertInto db annotation_key_columns db.annotation_key vals = Except.ok r ∧
      db2 = { db with annotation_key := db.annotation_key ++ [r] } := by
  unfold DB.insertAnnotationKey at h
  cases hi : insertInto db annotation_key_columns db.annotation_key vals with
  | error e => rw [hi] at h; simp at h
  | ok r => rw [hi] at h; simp at h; exact ⟨r, rfl, h.symm⟩

theorem insertLabel_ok {db db2 : DB} {vals : List (Option SqlValue)}
    (h : db.insertLabel vals = Except.ok db2) :
    ∃ r, insertInto db Label_columns db.label vals = Except.ok r ∧
      db2 = { db with label := db.label ++ [r] } := by
  unfold DB.insertLabel at h
  cases hi : insertInto db Label_columns db.label vals with
  | error e => rw [hi] at h; simp at h
  | ok r => rw [hi] at h; simp at h; exact ⟨r, rfl, h.symm⟩

theorem insertFeature_ok {db db2 : DB} {vals : List (Option SqlValue)}
    (h : db.insertFeature vals = Except.ok db2) :
    ∃ r, insertInto db Feature_columns db.feature vals = Except.ok r ∧
      db2 = { db with feature := db.feature ++ [r] } := by
  unfold DB.insertFeature at h
  cases hi : insertInto db Feature_columns db.feature vals with
  | error e => rw [hi] at h; simp at h
  | ok r => rw [hi] at h; simp at h; exact ⟨r, rfl, h.symm⟩

theorem insertPrediction_ok {db db2 : DB} {vals : List (Option SqlValue)}
    (h : db.insertPrediction vals = Except.ok db2) :
    ∃ r, insertInto db Prediction_columns db.prediction vals = Except.ok r ∧
      db2 = { db with prediction := db.prediction ++ [r] } := by
  unfold DB.insertPrediction at h
  cases hi : insertInto db Prediction_columns db.prediction vals with
  | error e => rw [hi] at h; simp at h
  | ok r => rw [hi] at h; simp at h; exact ⟨r, rfl, h.symm⟩

theorem insertStableLabel_ok {db db2 : DB} {vals : List (Option SqlValue)}
    (h : db.insertStableLabel vals = Except.ok db2) :
    ∃ r, insertInto db stable_label_columns db.stable_label vals = Except.ok r ∧
      db2 = { db with stable_label := db.stable_label ++ [r] } := by
  unfold DB.insertStableLabel at h
  cases hi : insertInto db stable_label_columns db.stable_label vals with
  | error e => rw [hi] at h; simp at h
  | ok r => rw [hi] at h; simp at h; exact ⟨r, rfl, h.symm⟩

theorem pkProj_label_set2 (r : Row) (v : SqlValue) :
    pkProj Label_columns (r.set 2 v) = pkProj Label_columns r :=
  pkProj_set2 rfl r v

theorem pkProj_feature_set2 (r : Row) (v : SqlValue) :
    pkProj Feature_columns (r.set 2 v) = pkProj Feature_columns r :=
  pkProj_set2 rfl r v

theorem pkProj_prediction_set2 (r : Row) (v : SqlValue) :
    pkProj Prediction_columns (r.set 2 v) = pkProj Prediction_columns r :=
  pkProj_set2 rfl r v

theorem applyOp_pkOk {db : DB} (op : Op) (h : db.pkOk) : (applyOp db op).pkOk := by
  obtain ⟨h1, h2, h3, h4, h5, h6⟩ := h
  cases op with
  | insCandidate vals =>
      cases hins : db.insertCandidate vals with
      | error e => exact (by simpa [applyOp, tryStep, hins] using ⟨h1, h2, h3, h4, h5, h6⟩)
      | ok db2 =>
          obtain ⟨r, hi, hdb2⟩ := insertCandidate_ok hins
          subst hdb2
          simp only [applyOp, tryStep, hins]
          exact ⟨insert_pkInv hi h1, h2, h3, h4, h5, h6⟩
  | insKey vals =>
      cases hins : db.insertAnnotationKey vals with
      | error e => exact (by simpa [applyOp, tryStep, hins] using ⟨h1, h2, h3, h4, h5, h6⟩)
      | ok db2 =>
          obtain ⟨r, hi, hdb2⟩ := insertAnnotationKey_ok hins
          subst hdb2
          simp only [applyOp, tryStep, hins]
          exact ⟨h1, insert_pkInv hi h2, h3, h4, h5, h6⟩
  | insLabel vals =>
      cases hins : db.insertLabel vals with
      | error e => exact (by simpa [applyOp, tryStep, hins] using ⟨h1, h2, h3, h4, h5, h6⟩)
      | ok db2 =>
          obtain ⟨r, hi, hdb2⟩ := insertLabel_ok hins
          subst hdb2
          simp only [applyOp, tryStep, hins]
          exact ⟨h1, h2, insert_pkInv hi h3, h4, h5, h6⟩
  | insFeature vals =>
      cases hins : db.insertFeature vals with
      | error e => exact (by simpa [applyOp, tryStep, hins] using ⟨h1, h2, h3, h4, h5, h6⟩)
      | ok db2 =>
          obtain ⟨r, hi, hdb2⟩ := insertFeature_ok hins
          subst hdb2
          simp only [applyOp, tryStep, hins]
          exact ⟨h1, h2, h3, insert_pkInv hi h4, h5, h6⟩
  | insPrediction vals =>
      cases hins : db.insertPrediction vals with
      | error e => exact (by simpa [applyOp, tryStep, hins] using ⟨h1, h2, h3, h4, h5, h6⟩)
      | ok db2 =>
          obtain ⟨r, hi, hdb2⟩ := insertPrediction_ok hins
          subst hdb2
          simp only [applyOp, tryStep, hins]
          exact ⟨h1, h2, h3, h4, insert_pkInv hi h5, h6⟩
  | insStableLabel vals =>
      cases hins : db.insertStableLabel vals with
      | error e => exact (by simpa [applyOp, tryStep, hins] using ⟨h1, h2, h3, h4, h5, h6⟩)
      | ok db2 =>
          obtain ⟨r, hi, hdb2⟩ := insertStableLabel_ok hins
          subst hdb2
          simp only [applyOp, tryStep, hins]
          exact ⟨h1, h2, h3, h4, h5, insert_pkInv hi h6⟩
  | delCandidate cid =>
      exact ⟨pkInv_filter _ h1, h2, pkInv_filter _ h3, pkInv_filter _ h4,
        pkInv_filter _ h5, h6⟩
  | delKey kid =>
      exact ⟨h1, pkInv_filter _ h2, pkInv_filter _ h3, pkInv_filter _ h4,
        pkInv_filter _ h5, h6⟩
  | delLabel pk => exact ⟨h1, h2, pkInv_filter _ h3, h4, h5, h6⟩
  | delFeature pk => exact ⟨h1, h2, h3, pkInv_filter _ h4, h5, h6⟩
  | delPrediction pk => exact ⟨h1, h2, h3, h4, pkInv_filter _ h5, h6⟩
  | delStableLabel pk => exact ⟨h1, h2, h3, h4, h5, pkInv_filter _ h6⟩
  | updLabel pk v =>
      exact ⟨h1, h2, pkInv_updValue (fun r => pkProj_label_set2 r v) h3, h4, h5, h6⟩
  | updFeature pk v =>
      exact ⟨h1, h2, h3, pkInv_updValue (fun r => pkProj_feature_set2 r v) h4, h5, h6⟩
  | updPrediction pk v =>
      exact ⟨h1, h2, h3, h4, pkInv_updValue (fun r => pkProj_prediction_set2 r v) h5, h6⟩

theorem foldl_pkOk (ops : List Op) (db : DB) (h : db.pkOk) :
    (ops.foldl applyOp db).pkOk := by
  induction ops generalizing db with
  | nil => exact h
  | cons op ops ih => exact ih _ (applyOp_pkOk op h)

theorem empty_pkOk : DB.empty.pkOk :=
  ⟨List.Pairwise.nil, List.Pairwise.nil, List.Pairwise.nil,
   List.Pairwise.nil, List.Pairwise.nil, List.Pairwise.nil⟩

theorem reachable_pkOk {db : DB} (h : reachable db) : db.pkOk := by
  obtain ⟨ops, rfl⟩ := h
  exact foldl_pkOk ops DB.empty empty_pkOk

theorem pairwise_count_le_one {α β : Type} [DecidableEq β] {f : α → β} {l : List α}
    (h : l.Pairwise (fun a b => f a ≠ f b)) (y : β) :
    (l.filter (fun a => decide (f a = y))).length ≤ 1 := by
  induction l with
  | nil => simp
  | cons a t ih =>
      rw [List.pairwise_cons] at h
      obtain ⟨ha, ht⟩ := h
      by_cases hay : f a = y
      · have hnil : t.filter (fun b => decide (f b = y)) = [] := by
          rw [List.filter_eq_nil_iff]
          intro b hb
          simp only [decide_eq_true_eq]
          intro hby
          exact (ha b hb) (hay.trans hby.symm)
        simp [List.filter_cons, hay, hnil]
      · simp only [List.filter_cons, hay, decide_eq_true_eq, if_neg]
        exact ih ht

/-! ## Claim theorems -/

/-- C1: Deleting a `Candidate` row deletes exactly the `Label`, `Feature` and
`Prediction` rows whose `candidate_id` (column index 1) refers to it, while
every `StableLabel` row (and the `annotation_key` table) remains unchanged. -/
theorem delete_candidate_cascade (db : DB) (cid : SqlValue) :
    (db.deleteCandidate cid).stable_label = db.stable_label ∧
    (db.deleteCandidate cid).annotation_key = db.annotation_key ∧
    (∀ r, r ∈ (db.deleteCandidate cid).label ↔ r ∈ db.label ∧ ¬ colAt r 1 = cid) ∧
    (∀ r, r ∈ (db.deleteCandidate cid).feature ↔ r ∈ db.feature ∧ ¬ colAt r 1 = cid) ∧
    (∀ r, r ∈ (db.deleteCandidate cid).prediction ↔ r ∈ db.prediction ∧ ¬ colAt r 1 = cid) ∧
    (∀ r, r ∈ (db.deleteCandidate cid).candidate ↔ r ∈ db.candidate ∧ ¬ colAt r 0 = cid) := by
  refine ⟨rfl, rfl, ?_, ?_, ?_, ?_⟩ <;> intro r <;>
    simp [DB.deleteCandidate, List.mem_filter]

/-- C5: Deleting an `AnnotationKey` row deletes exactly the `Label`, `Feature`
and `Prediction` rows whose `key_id` (column index 0) refers to it; the
`candidate` and `stable_label` tables are unchanged. -/
theorem delete_key_cascade (db : DB) (kid : SqlValue) :
    (db.deleteAnnotationKey kid).stable_label = db.stable_label ∧
    (db.deleteAnnotationKey kid).candidate = db.candidate ∧
    (∀ r, r ∈ (db.deleteAnnotationKey kid).label ↔ r ∈ db.label ∧ ¬ colAt r 0 = kid) ∧
    (∀ r, r ∈ (db.deleteAnnotationKey kid).feature ↔ r ∈ db.feature ∧ ¬ colAt r 0 = kid) ∧
    (∀ r, r ∈ (db.deleteAnnotationKey kid).prediction ↔ r ∈ db.prediction ∧ ¬ colAt r 0 = kid) ∧
    (∀ r, r ∈ (db.deleteAnnotationKey kid).annotation_key ↔
      r ∈ db.annotation_key ∧ ¬ colAt r 0 = kid) := by
  refine ⟨rfl, rfl, ?_, ?_, ?_, ?_⟩ <;> intro r <;>
    simp [DB.deleteAnnotationKey, List.mem_filter]

/-- C7: The persisted table names and column layouts are exactly
`annotation_key(id, name)`, `label(key_id, candidate_id, value)`,
`feature(key_id, candidate_id, value)`, `prediction(key_id, candidate_id,
value)` and `stable_label(context_stable_ids, annotator_name, split, value)`,
the three annotation table names being `camel_to_under` of the class name. -/
theorem persisted_layout :
    AnnotationKey_tablename = "annotation_key" ∧
    annotation_key_columns.map ColumnSpec.name = ["id", "name"] ∧
    mixin_tablename "Label" = "label" ∧
    Label_columns.map ColumnSpec.name = ["key_id", "candidate_id", "value"] ∧
    mixin_tablename "Feature" = "feature" ∧
    Feature_columns.map ColumnSpec.name = ["key_id", "candidate_id", "value"] ∧
    mixin_tablename "Prediction" = "prediction" ∧
    Prediction_columns.map ColumnSpec.name = ["key_id", "candidate_id", "value"] ∧
    StableLabel_tablename = "stable_label" ∧
    stable_label_columns.map ColumnSpec.name =
      ["context_stable_ids", "annotator_name", "split", "value"] ∧
    camel_to_under "Label" = "label" ∧
    camel_to_under "Feature" = "feature" ∧
    camel_to_under "Prediction" = "prediction" := by
  decide

/-- C9: For each annotation class, the `key` and `candidate` relationships
create backreference collections named `camel_to_under` of the class name plus
`s` (`labels`, `features`, `predictions` on `AnnotationKey` and `Candidate`),
each configured with cascade `all, delete-orphan`. -/
theorem backref_collections :
    mixin_key_rel "Label" = ⟨"AnnotationKey", "labels", "all, delete-orphan"⟩ ∧
    mixin_candidate_rel "Label" = ⟨"Candidate", "labels", "all, delete-orphan"⟩ ∧
    mixin_key_rel "Feature" = ⟨"AnnotationKey", "features", "all, delete-orphan"⟩ ∧
    mixin_candidate_rel "Feature" = ⟨"Candidate", "features", "all, delete-orphan"⟩ ∧
    mixin_key_rel "Prediction" = ⟨"AnnotationKey", "predictions", "all, delete-orphan"⟩ ∧
    mixin_candidate_rel "Prediction" = ⟨"Candidate", "predictions", "all, delete-orphan"⟩ := by
  decide

/-- C3: In `Label`, `Feature` and `Prediction` the composite primary key is
`(key_id, candidate_id)`, and in every reachable database state each of the
three tables holds at most one row per primary-key projection; the invariant
is preserved by every operation sequence (inserts, updates, deletes). -/
theorem annotation_pk_at_most_one (db : DB) (h : reachable db) :
    (Label_columns.filter (fun col => col.primary_key)).map ColumnSpec.name
        = ["key_id", "candidate_id"] ∧
    (Feature_columns.filter (fun col => col.primary_key)).map ColumnSpec.name
        = ["key_id", "candidate_id"] ∧
    (Prediction_columns.filter (fun col => col.primary_key)).map ColumnSpec.name
        = ["key_id", "candidate_id"] ∧
    ∀ pk : List SqlValue,
      (db.label.filter (fun r => decide (pkProj Label_columns r = pk))).length ≤ 1 ∧
      (db.feature.filter (fun r => decide (pkProj Feature_columns r = pk))).length ≤ 1 ∧
      (db.prediction.filter (fun r => decide (pkProj Prediction_columns r = pk))).length ≤ 1 := by
  obtain ⟨-, -, h3, h4, h5, -⟩ := reachable_pkOk h
  refine ⟨by decide, by decide, by decide, ?_⟩
  intro pk
  exact ⟨pairwise_count_le_one h3 pk, pairwise_count_le_one h4 pk,
    pairwise_count_le_one h5 pk⟩

/-- Witness state for the primary-key invariant: a key, a candidate and one
label row inserted from the empty database. -/
def opsW : List Op :=
  [ Op.insKey [some (SqlValue.intV 1), some (SqlValue.stringV "lf0")],
    Op.insCandidate [some (SqlValue.intV 7)],
    Op.insLabel [some (SqlValue.intV 1), some (SqlValue.intV 7), some (SqlValue.intV (-1))] ]

/-- Witness for C3 at the concrete reachable state built by `opsW`. -/
theorem annotation_pk_at_most_one_witness :
    (Label_columns.filter (fun col => col.primary_key)).map ColumnSpec.name
        = ["key_id", "candidate_id"] ∧
    ((opsW.foldl applyOp DB.empty).label.filter
        (fun r => decide (pkProj Label_columns r = [SqlValue.intV 1, SqlValue.intV 7]))).length ≤ 1 :=
  ⟨(annotation_pk_at_most_one (opsW.foldl applyOp DB.empty) ⟨opsW, rfl⟩).1,
   ((annotation_pk_at_most_one (opsW.foldl applyOp DB.empty) ⟨opsW, rfl⟩).2.2.2
      [SqlValue.intV 1, SqlValue.intV 7]).1⟩

theorem pkProj_annotation_key (s : Row) :
    pkProj annotation_key_columns s = [] ∨
      pkProj annotation_key_columns s = [colAt s 0] := by
  match s with
  | [] => exact Or.inl rfl
  | [a] => exact Or.inr rfl
  | a :: b :: t => exact Or.inr rfl

/-- C2: In a state already holding an `annotation_key` row named `n`,
inserting a second row with name `n` (and a fresh id, as the
auto-incrementing primary key produces) fails with a uniqueness violation and
leaves the database unchanged. -/
theorem annotation_key_name_unique (db : DB) (i : Int) (n : String)
    (hdup : ∃ s ∈ db.annotation_key, colAt s 1 = SqlValue.stringV n)
    (hfresh : ∀ s ∈ db.annotation_key, ¬ colAt s 0 = SqlValue.intV i) :
    db.insertAnnotationKey [some (SqlValue.intV i), some (SqlValue.stringV n)]
        = Except.error DBError.uniqueViolation ∧
    tryStep db (db.insertAnnotationKey
        [some (SqlValue.intV i), some (SqlValue.stringV n)]) = db := by
  have hres : resolveRow annotation_key_columns
      [some (SqlValue.intV i), some (SqlValue.stringV n)]
      = [SqlValue.intV i, SqlValue.stringV n] := rfl
  have hrc : rowCheck annotation_key_columns [SqlValue.intV i, SqlValue.stringV n] = none := by
    simp [rowCheck, columnCheck, typeMatches, annotation_key_columns]
  have hpf : pkConflict annotation_key_columns db.annotation_key
      [SqlValue.intV i, SqlValue.stringV n] = false := by
    rw [pkConflict_eq_false]
    intro s hs
    have hnew : pkProj annotation_key_columns [SqlValue.intV i, SqlValue.stringV n]
        = [SqlValue.intV i] := rfl
    rw [hnew]
    rcases pkProj_annotation_key s with hsh | hsh <;> rw [hsh]
    · simp
    · intro hcontra
      exact hfresh s hs (List.cons.inj hcontra).1
  have hu : uniqueConflict annotation_key_columns db.annotation_key
      [SqlValue.intV i, SqlValue.stringV n] = true := by
    obtain ⟨s, hs, hsn⟩ := hdup
    simp only [uniqueConflict, annotation_key_columns, List.enum, List.any_cons,
      List.any_nil, List.any_eq_true, colAt]
    simp [colAt]
    refine ⟨s, hs, ?_⟩
    simpa [colAt] using hsn
  have hchk : insertCheck db annotation_key_columns db.annotation_key
      [SqlValue.intV i, SqlValue.stringV n] = some DBError.uniqueViolation := by
    unfold insertCheck
    rw [hrc, hpf, hu]
    simp
  have h1 : db.insertAnnotationKey [some (SqlValue.intV i), some (SqlValue.stringV n)]
      = Except.error DBError.uniqueViolation := by
    unfold DB.insertAnnotationKey insertInto
    rw [hres, hchk]
    simp [annotation_key_columns]
  exact ⟨h1, by rw [h1]; rfl⟩

/-- Concrete state for the C2 witness: one key named `gold`. -/
def dbC2 : DB := ⟨[], [[SqlValue.intV 1, SqlValue.stringV "gold"]], [], [], [], []⟩

/-- Witness for C2: inserting a second `gold` key into `dbC2` fails with a
uniqueness violation and leaves the database unchanged. -/
theorem annotation_key_name_unique_witness :
    dbC2.insertAnnotationKey [some (SqlValue.intV 2), some (SqlValue.stringV "gold")]
        = Except.error DBError.uniqueViolation ∧
    tryStep dbC2 (dbC2.insertAnnotationKey
        [some (SqlValue.intV 2), some (SqlValue.stringV "gold")]) = dbC2 :=
  annotation_key_name_unique dbC2 2 "gold" (by decide) (by decide)

theorem insertStableLabel_check (db : DB) (ids an : String) (w : SqlValue) (v : Int)
    (hw : w = SqlValue.nullV ∨ ∃ m : Int, w = SqlValue.intV m)
    (hfresh : ∀ s ∈ db.stable_label,
      ¬ pkProj stable_label_columns s = [SqlValue.stringV ids, SqlValue.stringV an]) :
    insertCheck db stable_label_columns db.stable_label
      [SqlValue.stringV ids, SqlValue.stringV an, w, SqlValue.intV v] = none := by
  have hrc : rowCheck stable_label_columns
      [SqlValue.stringV ids, SqlValue.stringV an, w, SqlValue.intV v] = none := by
    rcases hw with rfl | ⟨m, rfl⟩ <;> rfl
  have hpk : pkConflict stable_label_columns db.stable_label
      [SqlValue.stringV ids, SqlValue.stringV an, w, SqlValue.intV v] = false := by
    rw [pkConflict_eq_false]
    intro s hs
    have hproj : pkProj stable_label_columns
        [SqlValue.stringV ids, SqlValue.stringV an, w, SqlValue.intV v]
        = [SqlValue.stringV ids, SqlValue.stringV an] := rfl
    rw [hproj]
    exact hfresh s hs
  have hu : uniqueConflict stable_label_columns db.stable_label
      [SqlValue.stringV ids, SqlValue.stringV an, w, SqlValue.intV v] = false := rfl
  have hfk : fkConflict db stable_label_columns
      [SqlValue.stringV ids, SqlValue.stringV an, w, SqlValue.intV v] = false := rfl
  unfold insertCheck
  rw [hrc, hpk, hu, hfk]
  rfl

theorem insertStableLabel_ok_of (db : DB) (ids an : String) (w : SqlValue) (v : Int)
    (hw : w = SqlValue.nullV ∨ ∃ m : Int, w = SqlValue.intV m)
    (hfresh : ∀ s ∈ db.stable_label,
      ¬ pkProj stable_label_columns s = [SqlValue.stringV ids, SqlValue.stringV an]) :
    db.insertStableLabel
        [some (SqlValue.stringV ids), some (SqlValue.stringV an), some w,
         some (SqlValue.intV v)]
      = Except.ok { db with stable_label := db.stable_label ++
          [[SqlValue.stringV ids, SqlValue.stringV an, w, SqlValue.intV v]] } := by
  have hchk := insertStableLabel_check db ids an w v hw hfresh
  unfold DB.insertStableLabel insertInto
  rw [show resolveRow stable_label_columns
      [some (SqlValue.stringV ids), some (SqlValue.stringV an), some w,
       some (SqlValue.intV v)]
      = [SqlValue.stringV ids, SqlValue.stringV an, w, SqlValue.intV v] from rfl, hchk]
  rfl

/-- C4: A `StableLabel` row can be inserted and found in any state, in
particular one with no `Candidate` rows at all; `stable_label` declares no
foreign key, and neither cascading delete touches it. -/
theorem stable_label_independent (db : DB) (ids an : String) (sp v : Int)
    (hfresh : ∀ s ∈ db.stable_label,
      ¬ pkProj stable_label_columns s = [SqlValue.stringV ids, SqlValue.stringV an]) :
    (∀ col ∈ stable_label_columns, col.foreign_key = none) ∧
    (∀ x, (db.deleteCandidate x).stable_label = db.stable_label) ∧
    (∀ x, (db.deleteAnnotationKey x).stable_label = db.stable_label) ∧
    ∃ db2, db.insertStableLabel
        [some (SqlValue.stringV ids), some (SqlValue.stringV an),
         some (SqlValue.intV sp), some (SqlValue.intV v)] = Except.ok db2 ∧
      [SqlValue.stringV ids, SqlValue.stringV an, SqlValue.intV sp, SqlValue.intV v]
        ∈ db2.stable_label := by
  refine ⟨by decide, fun x => rfl, fun x => rfl, ?_⟩
  refine ⟨_, insertStableLabel_ok_of db ids an (SqlValue.intV sp) v (Or.inr ⟨sp, rfl⟩) hfresh, ?_⟩
  simp

/-- Witness for C4: inserting a `StableLabel` into the empty database (which
in particular has no `Candidate` rows) succeeds. -/
theorem stable_label_independent_witness :
    (∀ col ∈ stable_label_columns, col.foreign_key = none) ∧
    (∀ x, (DB.empty.deleteCandidate x).stable_label = DB.empty.stable_label) ∧
    (∀ x, (DB.empty.deleteAnnotationKey x).stable_label = DB.empty.stable_label) ∧
    ∃ db2, DB.empty.insertStableLabel
        [some (SqlValue.stringV "doc1::span:0:4"), some (SqlValue.stringV "alice"),
         some (SqlValue.intV 0), some (SqlValue.intV 1)] = Except.ok db2 ∧
      [SqlValue.stringV "doc1::span:0:4", SqlValue.stringV "alice",
       SqlValue.intV 0, SqlValue.intV 1] ∈ db2.stable_label :=
  stable_label_independent DB.empty "doc1::span:0:4" "alice" 0 1 (by decide)

/-- C6: `value` is an `Integer` column in `Label` and a `Float` column in
`Feature` and `Prediction`, not nullable in all three, and inserting a row
whose `value` is NULL (explicitly, or omitted with no default) fails with a
not-null violation. -/
theorem value_not_null (db : DB) (k c : Int) :
    Label_columns.map (fun col => (col.name, col.ctype, col.nullable))
        = [("key_id", ColType.intT, true), ("candidate_id", ColType.intT, true),
           ("value", ColType.intT, false)] ∧
    Feature_columns.map (fun col => (col.name, col.ctype, col.nullable))
        = [("key_id", ColType.intT, true), ("candidate_id", ColType.intT, true),
           ("value", ColType.floatT, false)] ∧
    Prediction_columns.map (fun col => (col.name, col.ctype, col.nullable))
        = [("key_id", ColType.intT, true), ("candidate_id", ColType.intT, true),
           ("value", ColType.floatT, false)] ∧
    db.insertLabel [some (SqlValue.intV k), some (SqlValue.intV c), some SqlValue.nullV]
        = Except.error DBError.notNullViolation ∧
    db.insertLabel [some (SqlValue.intV k), some (SqlValue.intV c), none]
        = Except.error DBError.notNullViolation ∧
    db.insertFeature [some (SqlValue.intV k), some (SqlValue.intV c), some SqlValue.nullV]
        = Except.error DBError.notNullViolation ∧
    db.insertFeature [some (SqlValue.intV k), some (SqlValue.intV c), none]
        = Except.error DBError.notNullViolation ∧
    db.insertPrediction [some (SqlValue.intV k), some (SqlValue.intV c), some SqlValue.nullV]
        = Except.error DBError.notNullViolation ∧
    db.insertPrediction [some (SqlValue.intV k), some (SqlValue.intV c), none]
        = Except.error DBError.notNullViolation :=
  ⟨rfl, rfl, rfl, rfl, rfl, rfl, rfl, rfl, rfl⟩

/-- C10: `StableLabel.split` defaults to 0 only when omitted; an explicit
NULL `split` is stored as NULL (the column is nullable), while a NULL `value`
is rejected with a not-null violation. -/
theorem stable_label_split_semantics (db : DB) (ids an : String) (sp v : Int)
    (hfresh : ∀ s ∈ db.stable_label,
      ¬ pkProj stable_label_columns s = [SqlValue.stringV ids, SqlValue.stringV an]) :
    stable_label_columns.map (fun col => (col.name, col.nullable, col.dflt))
        = [("context_stable_ids", true, none), ("annotator_name", true, none),
           ("split", true, some (SqlValue.intV 0)), ("value", false, none)] ∧
    (∃ db2, db.insertStableLabel
        [some (SqlValue.stringV ids), some (SqlValue.stringV an), none,
         some (SqlValue.intV v)] = Except.ok db2 ∧
      [SqlValue.stringV ids, SqlValue.stringV an, SqlValue.intV 0, SqlValue.intV v]
        ∈ db2.stable_label) ∧
    (∃ db2, db.insertStableLabel
        [some (SqlValue.stringV ids), some (SqlValue.stringV an), some SqlValue.nullV,
         some (SqlValue.intV v)] = Except.ok db2 ∧
      [SqlValue.stringV ids, SqlValue.stringV an, SqlValue.nullV, SqlValue.intV v]
        ∈ db2.stable_label) ∧
    db.insertStableLabel
        [some (SqlValue.stringV ids), some (SqlValue.stringV an),
         some (SqlValue.intV sp), some SqlValue.nullV]
      = Except.error DBError.notNullViolation := by
  refine ⟨rfl, ?_, ?_, rfl⟩
  · have hchk := insertStableLabel_check db ids an (SqlValue.intV 0) v
      (Or.inr ⟨0, rfl⟩) hfresh
    have hok : db.insertStableLabel
        [some (SqlValue.stringV ids), some (SqlValue.stringV an), none,
         some (SqlValue.intV v)]
        = Except.ok { db with stable_label := db.stable_label ++
            [[SqlValue.stringV ids, SqlValue.stringV an, SqlValue.intV 0,
              SqlValue.intV v]] } := by
      unfold DB.insertStableLabel insertInto
      rw [show resolveRow stable_label_columns
          [some (SqlValue.stringV ids), some (SqlValue.stringV an), none,
           some (SqlValue.intV v)]
          = [SqlValue.stringV ids, SqlValue.stringV an, SqlValue.intV 0,
             SqlValue.intV v] from rfl, hchk]
      rfl
    refine ⟨_, hok, ?_⟩
    simp
  · refine ⟨_, insertStableLabel_ok_of db ids an SqlValue.nullV v (Or.inl rfl) hfresh, ?_⟩
    simp

/-- Witness for C10 at the empty database. -/
theorem stable_label_split_semantics_witness :
    stable_label_columns.map (fun col => (col.name, col.nullable, col.dflt))
        = [("context_stable_ids", true, none), ("annotator_name", true, none),
           ("split", true, some (SqlValue.intV 0)), ("value", false, none)] ∧
    (∃ db2, DB.empty.insertStableLabel
        [some (SqlValue.stringV "d0"), some (SqlValue.stringV "bob"), none,
         some (SqlValue.intV 2)] = Except.ok db2 ∧
      [SqlValue.stringV "d0", SqlValue.stringV "bob", SqlValue.intV 0, SqlValue.intV 2]
        ∈ db2.stable_label) ∧
    (∃ db2, DB.empty.insertStableLabel
        [some (SqlValue.stringV "d0"), some (SqlValue.stringV "bob"), some SqlValue.nullV,
         some (SqlValue.intV 2)] = Except.ok db2 ∧
      [SqlValue.stringV "d0", SqlValue.stringV "bob", SqlValue.nullV, SqlValue.intV 2]
        ∈ db2.stable_label) ∧
    DB.empty.insertStableLabel
        [some (SqlValue.stringV "d0"), some (SqlValue.stringV "bob"),
         some (SqlValue.intV 1), some SqlValue.nullV]
      = Except.error DBError.notNullViolation :=
  stable_label_split_semantics DB.empty "d0" "bob" 1 2 (by decide)

theorem fkConflict_annotation_row (db : DB) (c2 : ColumnSpec)
    (h : c2.foreign_key = none) (k c : Int) (w : SqlValue) :
    fkConflict db [mixin_key_id, mixin_candidate_id, c2]
        [SqlValue.intV k, SqlValue.intV c, w]
      = (!(db.annotation_key.any (fun r => decide (colAt r 0 = SqlValue.intV k))) ||
         !(db.candidate.any (fun r => decide (colAt r 0 = SqlValue.intV c)))) := by
  simp [fkConflict, mixin_key_id, mixin_candidate_id, DB.fkTargetHas, h]

theorem pkConflict_annotation_false (cols : List ColumnSpec) (rows : List Row)
    (k c : Int) (w : SqlValue)
    (hproj : pkProj cols [SqlValue.intV k, SqlValue.intV c, w]
        = [SqlValue.intV k, SqlValue.intV c])
    (hfresh : ∀ s ∈ rows, ¬ pkProj cols s = [SqlValue.intV k, SqlValue.intV c]) :
    pkConflict cols rows [SqlValue.intV k, SqlValue.intV c, w] = false := by
  rw [pkConflict_eq_false, hproj]
  exact hfresh

/-- C8: `key_id` and `candidate_id` are foreign keys into `annotation_key.id`
and `candidate.id`; inserting a `Label`, `Feature` or `Prediction` row whose
key or candidate is missing fails with a foreign-key violation. -/
theorem annotation_fk_enforced (db : DB) (k c v : Int) (q : ℚ)
    (hL : ∀ s ∈ db.label,
      ¬ pkProj Label_columns s = [SqlValue.intV k, SqlValue.intV c])
    (hF : ∀ s ∈ db.feature,
      ¬ pkProj Feature_columns s = [SqlValue.intV k, SqlValue.intV c])
    (hP : ∀ s ∈ db.prediction,
      ¬ pkProj Prediction_columns s = [SqlValue.intV k, SqlValue.intV c])
    (hmiss : (∀ s ∈ db.annotation_key, ¬ colAt s 0 = SqlValue.intV k) ∨
             (∀ s ∈ db.candidate, ¬ colAt s 0 = SqlValue.intV c)) :
    mixin_key_id.foreign_key = some "annotation_key.id" ∧
    mixin_candidate_id.foreign_key = some "candidate.id" ∧
    db.insertLabel [some (SqlValue.intV k), some (SqlValue.intV c), some (SqlValue.intV v)]
        = Except.error DBError.fkViolation ∧
    db.insertFeature [some (SqlValue.intV k), some (SqlValue.intV c), some (SqlValue.floatV q)]
        = Except.error DBError.fkViolation ∧
    db.insertPrediction [some (SqlValue.intV k), some (SqlValue.intV c), some (SqlValue.floatV q)]
        = Except.error DBError.fkViolation := by
  have hbool : (!(db.annotation_key.any (fun r => decide (colAt r 0 = SqlValue.intV k))) ||
      !(db.candidate.any (fun r => decide (colAt r 0 = SqlValue.intV c)))) = true := by
    rcases hmiss with hm | hm
    · have hany : db.annotation_key.any
          (fun r => decide (colAt r 0 = SqlValue.intV k)) = false := by
        simp only [List.any_eq_false, decide_eq_true_eq]
        exact hm
      simp [hany]
    · have hany : db.candidate.any
          (fun r => decide (colAt r 0 = SqlValue.intV c)) = false := by
        simp only [List.any_eq_false, decide_eq_true_eq]
        exact hm
      simp [hany]
  refine ⟨rfl, rfl, ?_, ?_, ?_⟩
  · have hfk : fkConflict db Label_columns
        [SqlValue.intV k, SqlValue.intV c, SqlValue.intV v] = true :=
      (fkConflict_annotation_row db _ rfl k c (SqlValue.intV v)).trans hbool
    have hchk : insertCheck db Label_columns db.label
        [SqlValue.intV k, SqlValue.intV c, SqlValue.intV v]
        = some DBError.fkViolation := by
      unfold insertCheck
      rw [show rowCheck Label_columns
          [SqlValue.intV k, SqlValue.intV c, SqlValue.intV v] = none from rfl,
        pkConflict_annotation_false Label_columns db.label k c (SqlValue.intV v) rfl hL,
        show uniqueConflict Label_columns db.label
          [SqlValue.intV k, SqlValue.intV c, SqlValue.intV v] = false from rfl,
        hfk]
      rfl
    unfold DB.insertLabel insertInto
    rw [show resolveRow Label_columns
        [some (SqlValue.intV k), some (SqlValue.intV c), some (SqlValue.intV v)]
        = [SqlValue.intV k, SqlValue.intV c, SqlValue.intV v] from rfl, hchk]
    rfl
  · have hfk : fkConflict db Feature_columns
        [SqlValue.intV k, SqlValue.intV c, SqlValue.floatV q] = true :=
      (fkConflict_annotation_row db _ rfl k c (SqlValue.floatV q)).trans hbool
    have hchk : insertCheck db Feature_columns db.feature
        [SqlValue.intV k, SqlValue.intV c, SqlValue.floatV q]
        = some DBError.fkViolation := by
      unfold insertCheck
      rw [show rowCheck Feature_columns
          [SqlValue.intV k, SqlValue.intV c, SqlValue.floatV q] = none from rfl,
        pkConflict_annotation_false Feature_columns db.feature k c (SqlValue.floatV q) rfl hF,
        show uniqueConflict Feature_columns db.feature
          [SqlValue.intV k, SqlValue.intV c, SqlValue.floatV q] = false from rfl,
        hfk]
      rfl
    unfold DB.insertFeature insertInto
    rw [show resolveRow Feature_columns
        [some (SqlValue.intV k), some (SqlValue.intV c), some (SqlValue.floatV q)]
        = [SqlValue.intV k, SqlValue.intV c, SqlValue.floatV q] from rfl, hchk]
    rfl
  · have hfk : fkConflict db Prediction_columns
        [SqlValue.intV k, SqlValue.intV c, SqlValue.floatV q] = true :=
      (fkConflict_annotation_row db _ rfl k c (SqlValue.floatV q)).trans hbool
    have hchk : insertCheck db Prediction_columns db.prediction
        [SqlValue.intV k, SqlValue.intV c, SqlValue.floatV q]
        = some DBError.fkViolation := by
      unfold insertCheck
      rw [show rowCheck Prediction_columns
          [SqlValue.intV k, SqlValue.intV c, SqlValue.floatV q] = none from rfl,
        pkConflict_annotation_false Prediction_columns db.prediction k c (SqlValue.floatV q) rfl hP,
        show uniqueConflict Prediction_columns db.prediction
          [SqlValue.intV k, SqlValue.intV c, SqlValue.floatV q] = false from rfl,
        hfk]
      rfl
    unfold DB.insertPrediction insertInto
    rw [show resolveRow Prediction_columns
        [some (SqlValue.intV k), some (SqlValue.intV c), some (SqlValue.floatV q)]
        = [SqlValue.intV k, SqlValue.intV c, SqlValue.floatV q] from rfl, hchk]
    rfl

/-- Witness for C8: inserting annotation rows into the empty database (no
keys, no candidates) fails with a foreign-key violation. -/
theorem annotation_fk_enforced_witness :
    mixin_key_id.foreign_key = some "annotation_key.id" ∧
    mixin_candidate_id.foreign_key = some "candidate.id" ∧
    DB.empty.insertLabel
        [some (SqlValue.intV 1), some (SqlValue.intV 1), some (SqlValue.intV 0)]
        = Except.error DBError.fkViolation ∧
    DB.empty.insertFeature
        [some (SqlValue.intV 1), some (SqlValue.intV 1), some (SqlValue.floatV 1)]
        = Except.error DBError.fkViolation ∧
    DB.empty.insertPrediction
        [some (SqlValue.intV 1), some (SqlValue.intV 1), some (SqlValue.floatV 1)]
        = Except.error DBError.fkViolation :=
  annotation_fk_enforced DB.empty 1 1 0 1 (by decide) (by decide) (by decide)
    (Or.inl (by decide))

end Snorkel
